import Mathlib

/-!
Shallow embedding of the ClouDNS / CloudFormation synchronization tool
(`src/lib/cloudns-cloudformation-sync.js`).

JavaScript strings are modelled as Lean `String`s; `name.split(sep)` is
modelled as `List.splitOn` over the underlying character list, and
`parts.join(sep)` as `String.intercalate`.  `Array.prototype.slice`
index normalization (negative indices count from the end, clamped) is
modelled explicitly.  The network is modelled as oracles: a zone-probe
oracle, a record-list oracle and a mutation oracle bundled in a
`Provider`; the opaque credential pair of the source is absorbed into
those oracles.  Every function returns, besides its result, the updated
zone cache and the trace of REST calls it issued, so that statements
about "how many probes were issued" and "which mutations were sent"
are directly expressible.
-/

namespace CloudnsSync

/-- JavaScript `Array.prototype.slice` index normalization: a negative
index counts from the end (clamped below by 0), a nonnegative index is
clamped above by the length. -/
def jsNormIdx (len : Nat) (i : Int) : Nat :=
  if i < 0 then ((len : Int) + i).toNat else min i.toNat len

/-- JavaScript `xs.slice(start, stop)`. -/
def jsSlice {α : Type} (xs : List α) (start stop : Int) : List α :=
  (xs.take (jsNormIdx xs.length stop)).drop (jsNormIdx xs.length start)

/-- JavaScript `xs.slice(start)`. -/
def jsSliceFrom {α : Type} (xs : List α) (start : Int) : List α :=
  xs.drop (jsNormIdx xs.length start)

/-- JavaScript `s.split(sep)` for a single-character separator: split the
character sequence on each occurrence of `sep`, keeping empty pieces
(`"".split(sep)` is `[""]`). -/
def jsSplit (sep : Char) (s : String) : List String :=
  (s.data.splitOn sep).map (fun cs => String.mk cs)

/-- JavaScript `parts.join(sep)`: the empty list joins to `""`, a
singleton to itself, otherwise the pieces with `sep` in between. -/
def jsJoin (sep : String) : List String → String
  | [] => ""
  | [a] => a
  | a :: rest => a ++ sep ++ jsJoin sep rest

/-- `name.split('.')` as computed at the top of `autoDetectCloudnsHostAndZone`. -/
def nameParts (name : String) : List String := jsSplit '.' name

/-- Candidate A host: `nameParts.slice(0, nameParts.length - 2).join('.')`. -/
def hostName1 (name : String) : String :=
  jsJoin "." (jsSlice (nameParts name) 0 (((nameParts name).length : Int) - 2))

/-- Candidate A zone: `nameParts.slice(nameParts.length - 2).join('.')`. -/
def zoneName1 (name : String) : String :=
  jsJoin "." (jsSliceFrom (nameParts name) (((nameParts name).length : Int) - 2))

/-- Candidate B host: `nameParts.slice(0, nameParts.length - 3).join('.')`. -/
def hostName2 (name : String) : String :=
  jsJoin "." (jsSlice (nameParts name) 0 (((nameParts name).length : Int) - 3))

/-- Candidate B zone: `nameParts.slice(nameParts.length - 3).join('.')`. -/
def zoneName2 (name : String) : String :=
  jsJoin "." (jsSliceFrom (nameParts name) (((nameParts name).length : Int) - 3))

/-- Provider response to `GET /dns/get-zone-info.json`; the source only
ever reads its `status` field (`"1"` means the zone is registered). -/
structure ZoneProbeResult where
  status : String
deriving DecidableEq, Repr

/-- The zone cache: a JavaScript object used as a string-keyed map,
modelled as an association list in insertion order. -/
abbrev ZoneCache := List (String × ZoneProbeResult)

/-- Property read `zoneCache[z]`. -/
def cacheGet : ZoneCache → String → Option ZoneProbeResult
  | [], _ => none
  | (k, v) :: rest, z => if k = z then some v else cacheGet rest z

/-- Property write `zoneCache[z] = r` (replaces an existing binding in
place, otherwise appends). -/
def cacheSet : ZoneCache → String → ZoneProbeResult → ZoneCache
  | [], z, r => [(z, r)]
  | (k, v) :: rest, z, r => if k = z then (z, r) :: rest else (k, v) :: cacheSet rest z r

/-- One `zoneCache[z] || await cloudnsRestCall(...get-zone-info...)` step
followed by `zoneCache[z] = response`: returns the effective response,
the updated cache, and the list of zone names actually probed over the
network (empty on a cache hit). -/
def zoneLookup (probe : String → ZoneProbeResult) (cache : ZoneCache) (z : String) :
    ZoneProbeResult × ZoneCache × List String :=
  match cacheGet cache z with
  | some r => (r, cacheSet cache z r, [])
  | none => (probe z, cacheSet cache z (probe z), [z])

/-- The record returned by `autoDetectCloudnsHostAndZone`. -/
structure ResolvedTarget where
  hostName : String
  zoneName : String
deriving DecidableEq, Repr

/-- `autoDetectCloudnsHostAndZone` (source lines 59-90): probe the
2-label and 3-label suffixes through the cache, prefer Candidate A when
its status is `"1"`, else Candidate B when its status is `"1"`, else
fail with `Zone Not Found: <name>`.  Returns the result, the updated
cache, and the names probed over the network. -/
def autoDetectCloudnsHostAndZone (probe : String → ZoneProbeResult) (name : String)
    (zoneCache : ZoneCache) : Except String ResolvedTarget × ZoneCache × List String :=
  let l1 := zoneLookup probe zoneCache (zoneName1 name)
  let l2 := zoneLookup probe l1.2.1 (zoneName2 name)
  let zoneName :=
    if l1.1.status = "1" then zoneName1 name
    else if l2.1.status = "1" then zoneName2 name
    else ""
  let hostName :=
    if l1.1.status = "1" then hostName1 name
    else if l2.1.status = "1" then hostName2 name
    else ""
  if zoneName = "" then
    (Except.error ("Zone Not Found: " ++ name), l2.2.1, l1.2.2 ++ l2.2.2)
  else
    (Except.ok ⟨hostName, zoneName⟩, l2.2.1, l1.2.2 ++ l2.2.2)

/-- The effective Candidate A response (`zoneResponse1` in the source):
cache hit value or fresh probe result. -/
def zoneResponse1 (probe : String → ZoneProbeResult) (cache : ZoneCache) (name : String) :
    ZoneProbeResult :=
  (zoneLookup probe cache (zoneName1 name)).1

/-- The cache state between the two lookups of the resolver. -/
def cacheAfterZone1 (probe : String → ZoneProbeResult) (cache : ZoneCache) (name : String) :
    ZoneCache :=
  (zoneLookup probe cache (zoneName1 name)).2.1

/-- The effective Candidate B response (`zoneResponse2` in the source);
its lookup sees the cache already updated for Candidate A. -/
def zoneResponse2 (probe : String → ZoneProbeResult) (cache : ZoneCache) (name : String) :
    ZoneProbeResult :=
  (zoneLookup probe (cacheAfterZone1 probe cache name) (zoneName2 name)).1

/-- An entry of the `GET /dns/records.json` response (a mapping from
record id to record object; `Object.values` order is modelled by the
list order).  A missing or empty `id` is JavaScript-falsy. -/
structure DnsRecord where
  id : Option String
  host : String
  type : String
  ttl : String
  record : String
deriving DecidableEq, Repr

/-- Result of a `POST /dns/add-record.json` or `POST /dns/mod-record.json`
call. -/
structure MutationResult where
  status : String
  statusMessage : Option String
  statusDescription : Option String
deriving DecidableEq, Repr

/-- One REST call issued to the DNS provider. -/
inductive ApiCall where
  | getZoneInfo (domainName : String)
  | getRecords (domainName host type : String)
  | modRecord (domainName : String) (recordId : Option String) (host type record ttl : String)
  | addRecord (domainName host type record ttl : String)
deriving DecidableEq, Repr

/-- The DNS provider, seen through its three endpoints.  `records` takes
`domain-name`, `host`, `type`. -/
structure Provider where
  probe : String → ZoneProbeResult
  records : String → String → String → List DnsRecord
  mutate : ApiCall → MutationResult

/-- JavaScript truthiness of a possibly-absent string (`undefined` and
`""` are falsy). -/
def jsTruthyOpt : Option String → Bool
  | some s => s != ""
  | none => false

/-- JavaScript string coercion of a possibly-absent value, as it appears
inside `'...' + (a || b)`. -/
def jsUndefToString : Option String → String
  | some s => s
  | none => "undefined"

/-- JavaScript `a || b` on possibly-absent strings. -/
def jsOrElse (a b : Option String) : Option String :=
  if jsTruthyOpt a then a else b

/-- The message of the error raised when a mutation result has
`status === 'Failed'`: `intro + (statusMessage || statusDescription)`. -/
def failedMessage (intro : String) (result : MutationResult) : String :=
  intro ++ jsUndefToString (jsOrElse result.statusMessage result.statusDescription)

/-- `createOrUpdateCloudnsResource` (source lines 91-133): resolve the
zone/host split, list existing records for `(zone, host, type)`, inspect
only the first entry, and decide no-op / update / create; raise an error
when the mutation result reports `status === 'Failed'`.  Returns the
outcome, the updated zone cache, and the full trace of REST calls. -/
def createOrUpdateCloudnsResource (P : Provider) (name type value ttlValue : String)
    (zoneCache : ZoneCache) : Except String Unit × ZoneCache × List ApiCall :=
  match autoDetectCloudnsHostAndZone P.probe name zoneCache with
  | (Except.error e, cache2, probes) =>
    (Except.error e, cache2, probes.map ApiCall.getZoneInfo)
  | (Except.ok t, cache2, probes) =>
    let recordsResponse := P.records t.zoneName t.hostName type
    let existingRecord := recordsResponse.head?
    let baseCalls := probes.map ApiCall.getZoneInfo ++
      [ApiCall.getRecords t.zoneName t.hostName type]
    if existingRecord.map DnsRecord.host = some t.hostName ∧
        existingRecord.map DnsRecord.type = some type ∧
        existingRecord.map DnsRecord.ttl = some ttlValue ∧
        existingRecord.map DnsRecord.record = some value then
      (Except.ok (), cache2, baseCalls)
    else if jsTruthyOpt (existingRecord.bind DnsRecord.id) then
      let call := ApiCall.modRecord t.zoneName (existingRecord.bind DnsRecord.id)
        t.hostName type value ttlValue
      let result := P.mutate call
      if result.status = "Failed" then
        (Except.error (failedMessage "Modify record failed: " result), cache2,
          baseCalls ++ [call])
      else
        (Except.ok (), cache2, baseCalls ++ [call])
    else
      let call := ApiCall.addRecord t.zoneName t.hostName type value ttlValue
      let result := P.mutate call
      if result.status = "Failed" then
        (Except.error (failedMessage "Add record failed: " result), cache2,
          baseCalls ++ [call])
      else
        (Except.ok (), cache2, baseCalls ++ [call])

/-- The `{recordType, hostname}` pair parsed from a qualifying export name. -/
structure ParsedDirective where
  recordType : String
  hostname : String
deriving DecidableEq, Repr

/-- The export-name convention parser inlined in `main` (source lines
171-174): a name qualifies iff it starts with the literal tag
`ClouDNS:`; then `nameParts[1]` is the record type and the parts from
index 2 on, joined with `.`, are the hostname. -/
def parseExportName (nm : String) : Option ParsedDirective :=
  if "ClouDNS:".data.isPrefixOf nm.data then
    some ⟨((jsSplit ':' nm)[1]?).getD "", jsJoin "." ((jsSplit ':' nm).drop 2)⟩
  else none

/-- One CloudFormation export as seen by the driver. -/
structure ExportObj where
  name : Option String
  value : String
  exportingStackId : Option String
deriving DecidableEq, Repr

/-- Consume the literal `pre` at the head of `l`. -/
def expectLit (pre l : List Char) : Option (List Char) :=
  if pre.isPrefixOf l then some (l.drop pre.length) else none

/-- Consume one `[^:]+:` group (a nonempty colon-free field followed by a
colon); regex greediness is deterministic here because the field class
excludes the delimiter. -/
def parseNonColonField (l : List Char) : Option (List Char) :=
  let f := l.takeWhile (fun c => c != ':')
  if f.isEmpty then none
  else
    match l.drop f.length with
    | ':' :: rest => some rest
    | _ => none

/-- Consume one `[^\/]+\/` group and return the captured field. -/
def captureSlashField (l : List Char) : Option (List Char) :=
  let nm := l.takeWhile (fun c => c != '/')
  if nm.isEmpty then none
  else
    match l.drop nm.length with
    | '/' :: _ => some nm
    | _ => none

/-- The stack short-name extraction regex of the source (line 165):
`/^arn:[^:]+:cloudformation:[^:]+:[^:]+:stack\/([^\/]+)\//`, i.e. the
service field is the literal `cloudformation`. -/
def arnStackShortName (id : String) : Option String :=
  (expectLit "arn:".data id.data).bind fun r1 =>
  (parseNonColonField r1).bind fun r2 =>
  (expectLit "cloudformation:".data r2).bind fun r3 =>
  (parseNonColonField r3).bind fun r4 =>
  (parseNonColonField r4).bind fun r5 =>
  (expectLit "stack/".data r5).bind fun r6 =>
  (captureSlashField r6).map fun nm => String.mk nm

/-- Refinement comparison definition, following the spec's words only:
the identifier "parsed as `arn:*:*:*:*:stack/<name>/*`", reading each
`*` between colons as an arbitrary nonempty colon-free field (in
particular the service field is NOT pinned to `cloudformation`) and
`<name>` as a nonempty slash-free field. -/
def specArnStackShortName (id : String) : Option String :=
  (expectLit "arn:".data id.data).bind fun r1 =>
  (parseNonColonField r1).bind fun r2 =>
  (parseNonColonField r2).bind fun r3 =>
  (parseNonColonField r3).bind fun r4 =>
  (parseNonColonField r4).bind fun r5 =>
  (expectLit "stack/".data r5).bind fun r6 =>
  (captureSlashField r6).map fun nm => String.mk nm

/-- `exportObj.ExportingStackId?.match(...)`: an absent identifier never
matches. -/
def stackIdShortName : Option String → Option String
  | none => none
  | some id => arnStackShortName id

/-- The stack filter of `main` (source lines 163-170): skip an export
iff the filter is nonempty, the identifier is not literally one of the
filter entries, and the regex either fails or captures a short name not
in the filter. -/
def skipsByStackFilter (stackNames : List String) (e : ExportObj) : Bool :=
  !stackNames.isEmpty && !(stackNames.contains (e.exportingStackId.getD "")) &&
    (match stackIdShortName e.exportingStackId with
     | none => true
     | some n => !(stackNames.contains n))

/-- Refinement comparison definition, following the spec's words only:
"skip iff a filter was supplied and the owning-stack identifier does not
literally match any entry AND the identifier parsed as
`arn:*:*:*:*:stack/<name>/*` does not yield a `<name>` matching any
entry". -/
def specSkipsByStackFilter (stackNames : List String) (e : ExportObj) : Bool :=
  !stackNames.isEmpty && !(stackNames.contains (e.exportingStackId.getD "")) &&
    (match e.exportingStackId.bind specArnStackShortName with
     | none => true
     | some n => !(stackNames.contains n))

/-- The export loop of `main` (source lines 162-178), with pagination
flattened into one list: apply the stack filter, parse qualifying names,
and reconcile each directive, threading one zone cache through the run;
the first error aborts the remaining exports. -/
def runExports (P : Provider) (ttlValue : String) (stackNames : List String) :
    List ExportObj → ZoneCache → Except String Unit × ZoneCache × List ApiCall
  | [], cache => (Except.ok (), cache, [])
  | e :: rest, cache =>
    if skipsByStackFilter stackNames e then
      runExports P ttlValue stackNames rest cache
    else
      match e.name with
      | none => runExports P ttlValue stackNames rest cache
      | some nm =>
        match parseExportName nm with
        | none => runExports P ttlValue stackNames rest cache
        | some d =>
          match createOrUpdateCloudnsResource P d.hostname d.recordType e.value ttlValue cache with
          | (Except.error err, cache2, calls) => (Except.error err, cache2, calls)
          | (Except.ok _, cache2, calls) =>
            let r := runExports P ttlValue stackNames rest cache2
            (r.1, r.2.1, calls ++ r.2.2)

/-- Is this REST call a mutation (add or modify)? -/
def isMutationCall : ApiCall → Bool
  | ApiCall.modRecord _ _ _ _ _ _ => true
  | ApiCall.addRecord _ _ _ _ _ => true
  | _ => false

/-- Is this REST call a record-list query? -/
def isRecordsCall : ApiCall → Bool
  | ApiCall.getRecords _ _ _ => true
  | _ => false

/-- The mutation calls of a trace. -/
def mutationCalls (calls : List ApiCall) : List ApiCall := calls.filter isMutationCall

/-- The record-list queries of a trace. -/
def recordQueryCalls (calls : List ApiCall) : List ApiCall := calls.filter isRecordsCall

/-- How many zone-info probes for zone `z` a trace contains. -/
def probeCount (calls : List ApiCall) (z : String) : Nat :=
  calls.count (ApiCall.getZoneInfo z)

/-- The zone name selected by the resolver's ternary chain. -/
def selectedZoneName (probe : String → ZoneProbeResult) (cache : ZoneCache) (name : String) :
    String :=
  if (zoneResponse1 probe cache name).status = "1" then zoneName1 name
  else if (zoneResponse2 probe cache name).status = "1" then zoneName2 name
  else ""

/-- The host name selected by the resolver's ternary chain. -/
def selectedHostName (probe : String → ZoneProbeResult) (cache : ZoneCache) (name : String) :
    String :=
  if (zoneResponse1 probe cache name).status = "1" then hostName1 name
  else if (zoneResponse2 probe cache name).status = "1" then hostName2 name
  else ""

/-- The cache state after both lookups of the resolver. -/
def cacheAfterZone2 (probe : String → ZoneProbeResult) (cache : ZoneCache) (name : String) :
    ZoneCache :=
  (zoneLookup probe (cacheAfterZone1 probe cache name) (zoneName2 name)).2.1

/-- The zone names the resolver probes over the network. -/
def resolverProbes (probe : String → ZoneProbeResult) (cache : ZoneCache) (name : String) :
    List String :=
  (zoneLookup probe cache (zoneName1 name)).2.2 ++
    (zoneLookup probe (cacheAfterZone1 probe cache name) (zoneName2 name)).2.2

/-- Test probe oracle: every zone probes as registered. -/
def probeAll1 : String → ZoneProbeResult := fun _ => ⟨"1"⟩

/-- Test probe oracle: no zone is registered. -/
def probeNone : String → ZoneProbeResult := fun _ => ⟨"0"⟩

/-- Test probe oracle: only `example.org` is registered. -/
def probeOrgOnly : String → ZoneProbeResult :=
  fun z => if z = "example.org" then ⟨"1"⟩ else ⟨"0"⟩

/-- Test record oracle: no existing records. -/
def recsNone : String → String → String → List DnsRecord := fun _ _ _ => []

/-- Test mutation oracle: every mutation succeeds. -/
def mutOkay : ApiCall → MutationResult := fun _ => ⟨"Success", none, none⟩

/-- Test provider with no registered zones and no records. -/
def providerNone : Provider := ⟨probeNone, recsNone, mutOkay⟩

/-- Test export carrying a qualifying directive for `www.nope.org`. -/
def exportW : ExportObj :=
  ⟨some "ClouDNS:A:www:nope:org", "1.2.3.4",
   some "arn:aws:cloudformation:eu-west-1:111:stack/my-stack/abcd"⟩

/-- Test record oracle: one record for `www`/`CNAME` under `example.org`. -/
def recsOrgMatch : String → String → String → List DnsRecord :=
  fun z h ty =>
    if z = "example.org" ∧ h = "www" ∧ ty = "CNAME" then
      [⟨some "42", "www", "CNAME", "300", "target.example.net"⟩]
    else []

/-- Test provider: `example.org` registered, one matching record. -/
def providerOrg : Provider := ⟨probeOrgOnly, recsOrgMatch, mutOkay⟩

/-- Test record oracle: one stale record (old target) for `www`/`CNAME`. -/
def recsOrgStale : String → String → String → List DnsRecord :=
  fun z h ty =>
    if z = "example.org" ∧ h = "www" ∧ ty = "CNAME" then
      [⟨some "42", "www", "CNAME", "300", "old.example.net"⟩]
    else []

/-- Test mutation oracle: every mutation fails with message `boom`. -/
def mutFailBoom : ApiCall → MutationResult := fun _ => ⟨"Failed", some "boom", some "desc"⟩

/-- Test provider: `example.org` registered, stale record, failing mutations. -/
def providerOrgFail : Provider := ⟨probeOrgOnly, recsOrgStale, mutFailBoom⟩

/-- Test provider: `example.org` registered, no records yet. -/
def providerOrgEmpty : Provider := ⟨probeOrgOnly, recsNone, mutOkay⟩

/-- Test probe oracle: only `b.c` is registered. -/
def probeBC : String → ZoneProbeResult := fun z => if z = "b.c" then ⟨"1"⟩ else ⟨"0"⟩

/-- Test export whose owning-stack ARN has service `iam`, not
`cloudformation`. -/
def exportIam : ExportObj :=
  ⟨some "ClouDNS:A:x:example:org", "v",
   some "arn:aws:iam:eu-west-1:111:stack/my-stack/abcd"⟩

/-! ### Cache and lookup lemmas -/

theorem cacheGet_cacheSet_self (c : ZoneCache) (z : String) (r : ZoneProbeResult) :
    cacheGet (cacheSet c z r) z = some r := by
  induction c with
  | nil => simp [cacheSet, cacheGet]
  | cons kv rest ih =>
    obtain ⟨k, v⟩ := kv
    by_cases h : k = z <;> simp [cacheSet, cacheGet, h, ih]

theorem cacheGet_cacheSet_ne (c : ZoneCache) (z z' : String) (r : ZoneProbeResult)
    (h : z ≠ z') : cacheGet (cacheSet c z r) z' = cacheGet c z' := by
  induction c with
  | nil => simp [cacheSet, cacheGet, h]
  | cons kv rest ih =>
    obtain ⟨k, v⟩ := kv
    by_cases hk : k = z
    · subst hk
      simp [cacheSet, cacheGet, h]
    · simp [cacheSet, cacheGet, hk, ih]

theorem cacheSet_cacheGet_same (c : ZoneCache) (z : String) (r : ZoneProbeResult)
    (h : cacheGet c z = some r) : cacheSet c z r = c := by
  induction c with
  | nil => simp [cacheGet] at h
  | cons kv rest ih =>
    obtain ⟨k, v⟩ := kv
    by_cases hk : k = z
    · subst hk
      simp [cacheGet] at h
      simp [cacheSet, h]
    · simp [cacheGet, hk] at h
      simp [cacheSet, hk, ih h]

theorem zoneLookup_of_hit (probe : String → ZoneProbeResult) (c : ZoneCache) (z : String)
    (r : ZoneProbeResult) (h : cacheGet c z = some r) :
    zoneLookup probe c z = (r, cacheSet c z r, []) := by
  unfold zoneLookup
  rw [h]

theorem zoneLookup_of_miss (probe : String → ZoneProbeResult) (c : ZoneCache) (z : String)
    (h : cacheGet c z = none) :
    zoneLookup probe c z = (probe z, cacheSet c z (probe z), [z]) := by
  unfold zoneLookup
  rw [h]

theorem zoneLookup_cache_eq (probe : String → ZoneProbeResult) (c : ZoneCache) (z : String) :
    (zoneLookup probe c z).2.1 = cacheSet c z (zoneLookup probe c z).1 := by
  unfold zoneLookup
  cases h : cacheGet c z <;> simp

theorem cacheGet_zoneLookup_self (probe : String → ZoneProbeResult) (c : ZoneCache)
    (z : String) : cacheGet (zoneLookup probe c z).2.1 z = some (zoneLookup probe c z).1 := by
  rw [zoneLookup_cache_eq]
  exact cacheGet_cacheSet_self _ _ _

theorem cacheGet_zoneLookup_preserve (probe : String → ZoneProbeResult) (c : ZoneCache)
    (z z' : String) (v : ZoneProbeResult) (h : cacheGet c z' = some v) :
    cacheGet (zoneLookup probe c z).2.1 z' = some v := by
  by_cases hz : z = z'
  · subst hz
    rw [zoneLookup_of_hit probe c z v h]
    exact cacheGet_cacheSet_self _ _ _
  · rw [zoneLookup_cache_eq, cacheGet_cacheSet_ne _ _ _ _ hz]
    exact h

theorem zoneLookup_probes_of_hit (probe : String → ZoneProbeResult) (c : ZoneCache)
    (z : String) (h : (cacheGet c z).isSome) : (zoneLookup probe c z).2.2 = [] := by
  obtain ⟨r, hr⟩ := Option.isSome_iff_exists.mp h
  rw [zoneLookup_of_hit probe c z r hr]

theorem zoneLookup_probes_cases (probe : String → ZoneProbeResult) (c : ZoneCache)
    (z : String) :
    (zoneLookup probe c z).2.2 = [] ∨
      ((zoneLookup probe c z).2.2 = [z] ∧ cacheGet c z = none) := by
  cases h : cacheGet c z with
  | none => right; rw [zoneLookup_of_miss probe c z h]; exact ⟨rfl, rfl⟩
  | some r => left; rw [zoneLookup_of_hit probe c z r h]

theorem autoDetect_eq (probe : String → ZoneProbeResult) (name : String) (cache : ZoneCache) :
    autoDetectCloudnsHostAndZone probe name cache =
      (if selectedZoneName probe cache name = "" then
         Except.error ("Zone Not Found: " ++ name)
       else Except.ok ⟨selectedHostName probe cache name, selectedZoneName probe cache name⟩,
       cacheAfterZone2 probe cache name, resolverProbes probe cache name) := by
  simp only [autoDetectCloudnsHostAndZone, selectedZoneName, selectedHostName, cacheAfterZone2,
    resolverProbes, zoneResponse2, zoneResponse1, cacheAfterZone1]
  split <;> split <;> first
  | rfl
  | (split <;> rfl)

/-! ### Join and split lemmas -/

theorem jsJoin_cons_of_ne_nil (sep a : String) (t : List String) (h : t ≠ []) :
    jsJoin sep (a :: t) = a ++ sep ++ jsJoin sep t := by
  cases t with
  | nil => exact absurd rfl h
  | cons b t' => rfl

theorem mk_append_mk (u v : List Char) : String.mk u ++ String.mk v = String.mk (u ++ v) := rfl

theorem jsJoin_map_mk : ∀ pieces : List (List Char),
    jsJoin "." (pieces.map (fun cs => String.mk cs)) = String.mk (List.intercalate ['.'] pieces)
  | [] => rfl
  | [a] => by simp [jsJoin, List.intercalate]
  | a :: b :: t => by
    have ih := jsJoin_map_mk (b :: t)
    simp only [List.map_cons] at ih ⊢
    rw [jsJoin_cons_of_ne_nil _ _ _ (by simp), ih]
    rw [show ("." : String) = String.mk ['.'] from rfl, mk_append_mk, mk_append_mk]
    simp [List.intercalate, List.intersperse]

theorem jsJoin_jsSplit (s : String) : jsJoin "." (jsSplit '.' s) = s := by
  unfold jsSplit
  rw [jsJoin_map_mk, List.intercalate_splitOn]

theorem jsJoin_nameParts (name : String) : jsJoin "." (nameParts name) = name :=
  jsJoin_jsSplit name

theorem nameParts_ne_nil (name : String) : nameParts name ≠ [] := by
  unfold nameParts jsSplit
  intro h
  exact List.splitOnP_ne_nil _ _ (List.map_eq_nil_iff.mp h)

/-! ### Slice index arithmetic -/

theorem jsNormIdx_zero (n : Nat) : jsNormIdx n 0 = 0 := by
  unfold jsNormIdx
  split <;> omega

theorem jsNormIdx_sub_two (n : Nat) : jsNormIdx n ((n : Int) - 2) = n - 2 := by
  unfold jsNormIdx
  split <;> omega

theorem jsNormIdx_sub_three (n : Nat) (h : n ≠ 2) : jsNormIdx n ((n : Int) - 3) = n - 3 := by
  unfold jsNormIdx
  split <;> omega

theorem jsNormIdx_two_sub_three : jsNormIdx 2 (((2 : Nat) : Int) - 3) = 1 := by
  unfold jsNormIdx
  split <;> omega

theorem hostName1_eq_take (name : String) :
    hostName1 name = jsJoin "." ((nameParts name).take ((nameParts name).length - 2)) := by
  unfold hostName1 jsSlice
  rw [jsNormIdx_zero, jsNormIdx_sub_two, List.drop_zero]

theorem zoneName1_eq_drop (name : String) :
    zoneName1 name = jsJoin "." ((nameParts name).drop ((nameParts name).length - 2)) := by
  unfold zoneName1 jsSliceFrom
  rw [jsNormIdx_sub_two]

theorem hostName2_eq_take (name : String) (h : (nameParts name).length ≠ 2) :
    hostName2 name = jsJoin "." ((nameParts name).take ((nameParts name).length - 3)) := by
  unfold hostName2 jsSlice
  rw [jsNormIdx_zero, jsNormIdx_sub_three _ h, List.drop_zero]

theorem zoneName2_eq_drop (name : String) (h : (nameParts name).length ≠ 2) :
    zoneName2 name = jsJoin "." ((nameParts name).drop ((nameParts name).length - 3)) := by
  unfold zoneName2 jsSliceFrom
  rw [jsNormIdx_sub_three _ h]

theorem hostName2_eq_of_two (name : String) (h : (nameParts name).length = 2) :
    hostName2 name = jsJoin "." ((nameParts name).take 1) := by
  unfold hostName2 jsSlice
  rw [jsNormIdx_zero, List.drop_zero, h, jsNormIdx_two_sub_three]

theorem zoneName2_eq_of_two (name : String) (h : (nameParts name).length = 2) :
    zoneName2 name = jsJoin "." ((nameParts name).drop 1) := by
  unfold zoneName2 jsSliceFrom
  rw [h, jsNormIdx_two_sub_three]

/-! ### Nonemptiness of the selected zone -/

theorem append_dot_append_ne_empty (x y : String) : x ++ "." ++ y ≠ "" := by
  intro h
  have hlen : (x ++ "." ++ y).length = 0 := by rw [h]; rfl
  rw [String.length_append, String.length_append] at hlen
  have hdot : ("." : String).length = 1 := rfl
  omega

theorem zoneName1_ne_empty (name : String) (h : name ≠ "") : zoneName1 name ≠ "" := by
  rw [zoneName1_eq_drop]
  cases hp : nameParts name with
  | nil => exact absurd hp (nameParts_ne_nil name)
  | cons a t =>
    cases t with
    | nil =>
      have hjoin := jsJoin_nameParts name
      rw [hp] at hjoin
      simpa [hjoin] using h
    | cons b t' =>
      have hlen : (((a :: b :: t').drop ((a :: b :: t').length - 2)).length) = 2 := by
        rw [List.length_drop]
        simp
        omega
      obtain ⟨x, y, hxy⟩ := List.length_eq_two.mp hlen
      rw [hxy]
      show x ++ "." ++ y ≠ ""
      exact append_dot_append_ne_empty x y

/-! ### Resolver projections -/

theorem autoDetect_fst (probe : String → ZoneProbeResult) (name : String) (cache : ZoneCache) :
    (autoDetectCloudnsHostAndZone probe name cache).1 =
      if selectedZoneName probe cache name = "" then
        Except.error ("Zone Not Found: " ++ name)
      else Except.ok ⟨selectedHostName probe cache name, selectedZoneName probe cache name⟩ := by
  rw [autoDetect_eq]

theorem autoDetect_cache_out (probe : String → ZoneProbeResult) (name : String)
    (cache : ZoneCache) :
    (autoDetectCloudnsHostAndZone probe name cache).2.1 = cacheAfterZone2 probe cache name := by
  rw [autoDetect_eq]

theorem autoDetect_probes_out (probe : String → ZoneProbeResult) (name : String)
    (cache : ZoneCache) :
    (autoDetectCloudnsHostAndZone probe name cache).2.2 = resolverProbes probe cache name := by
  rw [autoDetect_eq]

/-- C1: the resolver prefers the 2-label split whenever its probe
reports status `"1"`, regardless of the 3-label probe; the 3-label
split is selected only when the 2-label probe is not `"1"` and the
3-label probe is `"1"`. -/
theorem c1_zone_split_precedence (probe : String → ZoneProbeResult) (cache : ZoneCache)
    (name : String) (hname : name ≠ "") :
    ((zoneResponse1 probe cache name).status = "1" →
      (autoDetectCloudnsHostAndZone probe name cache).1 =
        Except.ok ⟨hostName1 name, zoneName1 name⟩) ∧
    ((zoneResponse1 probe cache name).status ≠ "1" →
      ∀ t : ResolvedTarget, (autoDetectCloudnsHostAndZone probe name cache).1 = Except.ok t →
        (zoneResponse2 probe cache name).status = "1" ∧
          t = ⟨hostName2 name, zoneName2 name⟩) := by
  constructor
  · intro h1
    rw [autoDetect_fst]
    simp only [selectedZoneName, selectedHostName, if_pos h1]
    rw [if_neg (zoneName1_ne_empty name hname)]
  · intro h1 t ht
    rw [autoDetect_fst] at ht
    simp only [selectedZoneName, selectedHostName, if_neg h1] at ht
    by_cases h2 : (zoneResponse2 probe cache name).status = "1"
    · simp only [if_pos h2] at ht
      refine ⟨h2, ?_⟩
      split at ht
      · exact absurd ht (by simp)
      · simpa using ht.symm
    · simp only [if_neg h2, if_pos rfl] at ht
      exact absurd ht (by simp)

/-- C1 witness: for `a.b.c` with every suffix probing as registered
(in particular both `b.c` and `a.b.c`), the 2-label split wins. -/
theorem c1_witness :
    (autoDetectCloudnsHostAndZone probeAll1 "a.b.c" []).1 = Except.ok ⟨"a", "b.c"⟩ := by
  have h := (c1_zone_split_precedence probeAll1 [] "a.b.c" (by decide)).1 (by decide)
  exact h

/-! ### Zone-not-found behavior -/

theorem autoDetect_not_found (probe : String → ZoneProbeResult) (cache : ZoneCache)
    (name : String) (h1 : (zoneResponse1 probe cache name).status ≠ "1")
    (h2 : (zoneResponse2 probe cache name).status ≠ "1") :
    autoDetectCloudnsHostAndZone probe name cache =
      (Except.error ("Zone Not Found: " ++ name), cacheAfterZone2 probe cache name,
       resolverProbes probe cache name) := by
  rw [autoDetect_eq]
  have hz : selectedZoneName probe cache name = "" := by
    simp [selectedZoneName, h1, h2]
  rw [if_pos hz]

theorem createOrUpdate_zone_not_found (P : Provider) (name type value ttl : String)
    (cache : ZoneCache) (h1 : (zoneResponse1 P.probe cache name).status ≠ "1")
    (h2 : (zoneResponse2 P.probe cache name).status ≠ "1") :
    createOrUpdateCloudnsResource P name type value ttl cache =
      (Except.error ("Zone Not Found: " ++ name), cacheAfterZone2 P.probe cache name,
       (resolverProbes P.probe cache name).map ApiCall.getZoneInfo) := by
  unfold createOrUpdateCloudnsResource
  rw [autoDetect_not_found P.probe cache name h1 h2]

/-- C4: when neither suffix probes as `"1"`, the resolver raises
`Zone Not Found: <name>`; the reconciler issues no record-list query and
no mutation for that directive, and the driver propagates the error,
leaving every later export unprocessed. -/
theorem c4_zone_not_found_aborts_run (P : Provider) (cache : ZoneCache) (ttl : String)
    (stackNames : List String) (e : ExportObj) (nm : String) (d : ParsedDirective)
    (hskip : skipsByStackFilter stackNames e = false) (hnm : e.name = some nm)
    (hparse : parseExportName nm = some d)
    (h1 : (zoneResponse1 P.probe cache d.hostname).status ≠ "1")
    (h2 : (zoneResponse2 P.probe cache d.hostname).status ≠ "1") :
    (autoDetectCloudnsHostAndZone P.probe d.hostname cache).1 =
      Except.error ("Zone Not Found: " ++ d.hostname) ∧
    recordQueryCalls (createOrUpdateCloudnsResource P d.hostname d.recordType e.value ttl
      cache).2.2 = [] ∧
    mutationCalls (createOrUpdateCloudnsResource P d.hostname d.recordType e.value ttl
      cache).2.2 = [] ∧
    (∀ rest : List ExportObj,
      runExports P ttl stackNames (e :: rest) cache =
        (Except.error ("Zone Not Found: " ++ d.hostname),
         cacheAfterZone2 P.probe cache d.hostname,
         (resolverProbes P.probe cache d.hostname).map ApiCall.getZoneInfo)) := by
  have hrun := createOrUpdate_zone_not_found P d.hostname d.recordType e.value ttl cache h1 h2
  refine ⟨?_, ?_, ?_, ?_⟩
  · rw [autoDetect_not_found P.probe cache d.hostname h1 h2]
  · rw [hrun]
    simp [recordQueryCalls, List.filter_map, isRecordsCall, Function.comp]
  · rw [hrun]
    simp [mutationCalls, List.filter_map, isMutationCall, Function.comp]
  · intro rest
    simp only [runExports, hskip, Bool.false_eq_true, if_false, hnm, hparse]
    rw [hrun]

/-- C4 witness: a run on a qualifying export whose name resolves
nowhere aborts with the `Zone Not Found` error and issues only the two
zone probes. -/
theorem c4_witness :
    runExports providerNone "300" [] [exportW, exportW] [] =
      (Except.error "Zone Not Found: www.nope.org",
       [("nope.org", ⟨"0"⟩), ("www.nope.org", ⟨"0"⟩)],
       [ApiCall.getZoneInfo "nope.org", ApiCall.getZoneInfo "www.nope.org"]) := by
  have h := (c4_zone_not_found_aborts_run providerNone [] "300" [] exportW "ClouDNS:A:www:nope:org"
    ⟨"A", "www.nope.org"⟩ (by decide) rfl (by decide) (by decide) (by decide)).2.2.2 [exportW]
  exact h

/-! ### Reconciler branch lemmas -/

theorem createOrUpdate_noop (P : Provider) (name type value ttl : String) (cache : ZoneCache)
    (t : ResolvedTarget) (c2 : ZoneCache) (ps : List String) (r : DnsRecord)
    (h : autoDetectCloudnsHostAndZone P.probe name cache = (Except.ok t, c2, ps))
    (hr : (P.records t.zoneName t.hostName type).head? = some r)
    (hh : r.host = t.hostName) (hty : r.type = type) (httl : r.ttl = ttl)
    (hrec : r.record = value) :
    createOrUpdateCloudnsResource P name type value ttl cache =
      (Except.ok (), c2,
       ps.map ApiCall.getZoneInfo ++ [ApiCall.getRecords t.zoneName t.hostName type]) := by
  unfold createOrUpdateCloudnsResource
  rw [h]
  simp [hr, hh, hty, httl, hrec]

theorem createOrUpdate_update (P : Provider) (name type value ttl : String) (cache : ZoneCache)
    (t : ResolvedTarget) (c2 : ZoneCache) (ps : List String) (r : DnsRecord)
    (h : autoDetectCloudnsHostAndZone P.probe name cache = (Except.ok t, c2, ps))
    (hr : (P.records t.zoneName t.hostName type).head? = some r)
    (hnm : ¬(r.host = t.hostName ∧ r.type = type ∧ r.ttl = ttl ∧ r.record = value))
    (hid : jsTruthyOpt r.id = true) :
    createOrUpdateCloudnsResource P name type value ttl cache =
      (if (P.mutate (ApiCall.modRecord t.zoneName r.id t.hostName type value ttl)).status =
          "Failed" then
         Except.error (failedMessage "Modify record failed: "
           (P.mutate (ApiCall.modRecord t.zoneName r.id t.hostName type value ttl)))
       else Except.ok (),
       c2,
       ps.map ApiCall.getZoneInfo ++ [ApiCall.getRecords t.zoneName t.hostName type] ++
         [ApiCall.modRecord t.zoneName r.id t.hostName type value ttl]) := by
  unfold createOrUpdateCloudnsResource
  rw [h]
  simp only [hr, Option.map_some', Option.some.injEq, Option.some_bind]
  rw [if_neg (by tauto), if_pos hid]
  split <;> rfl

theorem createOrUpdate_create (P : Provider) (name type value ttl : String) (cache : ZoneCache)
    (t : ResolvedTarget) (c2 : ZoneCache) (ps : List String)
    (h : autoDetectCloudnsHostAndZone P.probe name cache = (Except.ok t, c2, ps))
    (hnm : ¬((P.records t.zoneName t.hostName type).head?.map DnsRecord.host =
        some t.hostName ∧
      (P.records t.zoneName t.hostName type).head?.map DnsRecord.type = some type ∧
      (P.records t.zoneName t.hostName type).head?.map DnsRecord.ttl = some ttl ∧
      (P.records t.zoneName t.hostName type).head?.map DnsRecord.record = some value))
    (hid : jsTruthyOpt ((P.records t.zoneName t.hostName type).head?.bind DnsRecord.id)
        = false) :
    createOrUpdateCloudnsResource P name type value ttl cache =
      (if (P.mutate (ApiCall.addRecord t.zoneName t.hostName type value ttl)).status =
          "Failed" then
         Except.error (failedMessage "Add record failed: "
           (P.mutate (ApiCall.addRecord t.zoneName t.hostName type value ttl)))
       else Except.ok (),
       c2,
       ps.map ApiCall.getZoneInfo ++ [ApiCall.getRecords t.zoneName t.hostName type] ++
         [ApiCall.addRecord t.zoneName t.hostName type value ttl]) := by
  unfold createOrUpdateCloudnsResource
  simp only [h]
  rw [if_neg hnm, if_neg (by simp [hid])]
  split <;> rfl

theorem isMutationCall_getZoneInfo (z : String) :
    isMutationCall (ApiCall.getZoneInfo z) = false := rfl

theorem isMutationCall_getRecords (a b c : String) :
    isMutationCall (ApiCall.getRecords a b c) = false := rfl

theorem mutationCalls_base (ps : List String) (z hh ty : String) :
    mutationCalls (ps.map ApiCall.getZoneInfo ++ [ApiCall.getRecords z hh ty]) = [] := by
  simp [mutationCalls, List.filter_append, List.filter_map, isMutationCall, Function.comp]

theorem mutationCalls_base_call (ps : List String) (z hh ty : String) (call : ApiCall)
    (hc : isMutationCall call = true) :
    mutationCalls (ps.map ApiCall.getZoneInfo ++ [ApiCall.getRecords z hh ty] ++ [call]) =
      [call] := by
  simp [mutationCalls, List.filter_append, List.filter_map, Function.comp_def,
    isMutationCall_getZoneInfo, isMutationCall_getRecords, hc]

theorem headMatch_iff (er : Option DnsRecord) (hostName ty ttl value : String) :
    (er.map DnsRecord.host = some hostName ∧ er.map DnsRecord.type = some ty ∧
      er.map DnsRecord.ttl = some ttl ∧ er.map DnsRecord.record = some value) ↔
    (∃ r : DnsRecord, er = some r ∧ r.host = hostName ∧ r.type = ty ∧ r.ttl = ttl ∧
      r.record = value) := by
  cases er <;> simp

/-- C2: the reconciler inspects only the first entry of the record-list
response; it issues no mutation exactly when that entry matches the
target on host, type, ttl and record; otherwise it issues exactly one
mod-record call carrying the existing id when the entry has a (truthy)
id, and exactly one add-record call otherwise. -/
theorem c2_reconciler_decision (P : Provider) (name type value ttl : String)
    (cache : ZoneCache) (t : ResolvedTarget) (c2 : ZoneCache) (ps : List String)
    (h : autoDetectCloudnsHostAndZone P.probe name cache = (Except.ok t, c2, ps)) :
    (mutationCalls (createOrUpdateCloudnsResource P name type value ttl cache).2.2 = [] ↔
      (∃ r : DnsRecord, (P.records t.zoneName t.hostName type).head? = some r ∧
        r.host = t.hostName ∧ r.type = type ∧ r.ttl = ttl ∧ r.record = value)) ∧
    (∀ r : DnsRecord, (P.records t.zoneName t.hostName type).head? = some r →
      ¬(r.host = t.hostName ∧ r.type = type ∧ r.ttl = ttl ∧ r.record = value) →
      jsTruthyOpt r.id = true →
      mutationCalls (createOrUpdateCloudnsResource P name type value ttl cache).2.2 =
        [ApiCall.modRecord t.zoneName r.id t.hostName type value ttl]) ∧
    (jsTruthyOpt ((P.records t.zoneName t.hostName type).head?.bind DnsRecord.id) = false →
      ¬(∃ r : DnsRecord, (P.records t.zoneName t.hostName type).head? = some r ∧
        r.host = t.hostName ∧ r.type = type ∧ r.ttl = ttl ∧ r.record = value) →
      mutationCalls (createOrUpdateCloudnsResource P name type value ttl cache).2.2 =
        [ApiCall.addRecord t.zoneName t.hostName type value ttl]) ∧
    (∀ records2 : String → String → String → List DnsRecord,
      (∀ z hh ty, (records2 z hh ty).head? = (P.records z hh ty).head?) →
      createOrUpdateCloudnsResource ⟨P.probe, records2, P.mutate⟩ name type value ttl cache =
        createOrUpdateCloudnsResource P name type value ttl cache) := by
  refine ⟨⟨?_, ?_⟩, ?_, ?_, ?_⟩
  · intro hmut
    by_contra hex
    have hnm : ¬((P.records t.zoneName t.hostName type).head?.map DnsRecord.host =
        some t.hostName ∧
        (P.records t.zoneName t.hostName type).head?.map DnsRecord.type = some type ∧
        (P.records t.zoneName t.hostName type).head?.map DnsRecord.ttl = some ttl ∧
        (P.records t.zoneName t.hostName type).head?.map DnsRecord.record = some value) := by
      rw [headMatch_iff]
      exact hex
    by_cases hid : jsTruthyOpt ((P.records t.zoneName t.hostName type).head?.bind
        DnsRecord.id) = true
    · obtain ⟨r, hr⟩ : ∃ r, (P.records t.zoneName t.hostName type).head? = some r := by
        cases hh : (P.records t.zoneName t.hostName type).head? with
        | none => rw [hh] at hid; simp [jsTruthyOpt] at hid
        | some r => exact ⟨r, rfl⟩
      rw [hr, Option.some_bind] at hid
      have hnm' : ¬(r.host = t.hostName ∧ r.type = type ∧ r.ttl = ttl ∧
          r.record = value) := by
        intro hcon
        exact hex ⟨r, hr, hcon⟩
      rw [createOrUpdate_update P name type value ttl cache t c2 ps r h hr hnm' hid] at hmut
      rw [mutationCalls_base_call ps t.zoneName t.hostName type
        (ApiCall.modRecord t.zoneName r.id t.hostName type value ttl) rfl] at hmut
      exact List.cons_ne_nil _ _ hmut
    · rw [Bool.not_eq_true] at hid
      rw [createOrUpdate_create P name type value ttl cache t c2 ps h hnm hid] at hmut
      rw [mutationCalls_base_call ps t.zoneName t.hostName type
        (ApiCall.addRecord t.zoneName t.hostName type value ttl) rfl] at hmut
      exact List.cons_ne_nil _ _ hmut
  · rintro ⟨r, hr, hh, hty, httl, hrec⟩
    rw [createOrUpdate_noop P name type value ttl cache t c2 ps r h hr hh hty httl hrec]
    exact mutationCalls_base ps t.zoneName t.hostName type
  · intro r hr hnm hid
    rw [createOrUpdate_update P name type value ttl cache t c2 ps r h hr hnm hid]
    exact mutationCalls_base_call ps t.zoneName t.hostName type
      (ApiCall.modRecord t.zoneName r.id t.hostName type value ttl) rfl
  · intro hid hex
    have hnm : ¬((P.records t.zoneName t.hostName type).head?.map DnsRecord.host =
        some t.hostName ∧
        (P.records t.zoneName t.hostName type).head?.map DnsRecord.type = some type ∧
        (P.records t.zoneName t.hostName type).head?.map DnsRecord.ttl = some ttl ∧
        (P.records t.zoneName t.hostName type).head?.map DnsRecord.record = some value) := by
      rw [headMatch_iff]
      exact hex
    rw [createOrUpdate_create P name type value ttl cache t c2 ps h hnm hid]
    exact mutationCalls_base_call ps t.zoneName t.hostName type
      (ApiCall.addRecord t.zoneName t.hostName type value ttl) rfl
  · intro records2 heq
    unfold createOrUpdateCloudnsResource
    simp only [h]
    rw [heq t.zoneName t.hostName type]

/-- C2 witness: with the matching record in place, the reconciler issues
no mutation call. -/
theorem c2_witness :
    mutationCalls (createOrUpdateCloudnsResource providerOrg "www.example.org" "CNAME"
      "target.example.net" "300" []).2.2 = [] := by
  exact (c2_reconciler_decision providerOrg "www.example.org" "CNAME" "target.example.net" "300"
    [] ⟨"www", "example.org"⟩ [("example.org", ⟨"1"⟩), ("www.example.org", ⟨"0"⟩)]
    ["example.org", "www.example.org"] rfl).1.mpr
    ⟨⟨some "42", "www", "CNAME", "300", "target.example.net"⟩, by decide, rfl, rfl, rfl, rfl⟩

/-- C7: a mutation whose result has status `"Failed"` makes the
reconciler raise an error carrying `statusMessage` when present (and
nonempty), otherwise `statusDescription`; any other status raises no
error for that mutation. -/
theorem c7_failed_mutation_raises (P : Provider) (name type value ttl : String)
    (cache : ZoneCache) (t : ResolvedTarget) (c2 : ZoneCache) (ps : List String)
    (h : autoDetectCloudnsHostAndZone P.probe name cache = (Except.ok t, c2, ps)) :
    (∀ r : DnsRecord, (P.records t.zoneName t.hostName type).head? = some r →
      ¬(r.host = t.hostName ∧ r.type = type ∧ r.ttl = ttl ∧ r.record = value) →
      jsTruthyOpt r.id = true →
      ((P.mutate (ApiCall.modRecord t.zoneName r.id t.hostName type value ttl)).status =
          "Failed" →
        (createOrUpdateCloudnsResource P name type value ttl cache).1 =
          Except.error (failedMessage "Modify record failed: "
            (P.mutate (ApiCall.modRecord t.zoneName r.id t.hostName type value ttl)))) ∧
      ((P.mutate (ApiCall.modRecord t.zoneName r.id t.hostName type value ttl)).status ≠
          "Failed" →
        (createOrUpdateCloudnsResource P name type value ttl cache).1 = Except.ok ())) ∧
    (jsTruthyOpt ((P.records t.zoneName t.hostName type).head?.bind DnsRecord.id) = false →
      ¬(∃ r : DnsRecord, (P.records t.zoneName t.hostName type).head? = some r ∧
        r.host = t.hostName ∧ r.type = type ∧ r.ttl = ttl ∧ r.record = value) →
      ((P.mutate (ApiCall.addRecord t.zoneName t.hostName type value ttl)).status =
          "Failed" →
        (createOrUpdateCloudnsResource P name type value ttl cache).1 =
          Except.error (failedMessage "Add record failed: "
            (P.mutate (ApiCall.addRecord t.zoneName t.hostName type value ttl)))) ∧
      ((P.mutate (ApiCall.addRecord t.zoneName t.hostName type value ttl)).status ≠
          "Failed" →
        (createOrUpdateCloudnsResource P name type value ttl cache).1 = Except.ok ())) ∧
    (∀ intro s d, s ≠ "" →
      failedMessage intro ⟨"Failed", some s, d⟩ = intro ++ s) ∧
    (∀ intro d, failedMessage intro ⟨"Failed", none, some d⟩ = intro ++ d) := by
  refine ⟨?_, ?_, ?_, ?_⟩
  · intro r hr hnm hid
    rw [createOrUpdate_update P name type value ttl cache t c2 ps r h hr hnm hid]
    constructor
    · intro hfail
      rw [if_pos hfail]
    · intro hok
      rw [if_neg hok]
  · intro hid hex
    have hnm : ¬((P.records t.zoneName t.hostName type).head?.map DnsRecord.host =
        some t.hostName ∧
        (P.records t.zoneName t.hostName type).head?.map DnsRecord.type = some type ∧
        (P.records t.zoneName t.hostName type).head?.map DnsRecord.ttl = some ttl ∧
        (P.records t.zoneName t.hostName type).head?.map DnsRecord.record = some value) := by
      rw [headMatch_iff]
      exact hex
    rw [createOrUpdate_create P name type value ttl cache t c2 ps h hnm hid]
    constructor
    · intro hfail
      rw [if_pos hfail]
    · intro hok
      rw [if_neg hok]
  · intro intro s d hs
    simp [failedMessage, jsOrElse, jsTruthyOpt, jsUndefToString, hs]
  · intro intro d
    simp [failedMessage, jsOrElse, jsTruthyOpt, jsUndefToString]

/-- C7 witness: a failing modify call surfaces the provider's
`statusMessage`. -/
theorem c7_witness :
    (createOrUpdateCloudnsResource providerOrgFail "www.example.org" "CNAME"
      "new.example.net" "300" []).1 = Except.error "Modify record failed: boom" := by
  have h := ((c7_failed_mutation_raises providerOrgFail "www.example.org" "CNAME"
    "new.example.net" "300" [] ⟨"www", "example.org"⟩
    [("example.org", ⟨"1"⟩), ("www.example.org", ⟨"0"⟩)]
    ["example.org", "www.example.org"] rfl).1
    ⟨some "42", "www", "CNAME", "300", "old.example.net"⟩ (by decide) (by decide) rfl).1 rfl
  exact h

/-! ### Resolver idempotence -/

theorem autoDetect_idempotent (probe : String → ZoneProbeResult) (name : String)
    (cache : ZoneCache) (t : ResolvedTarget) (c2 : ZoneCache) (ps : List String)
    (h : autoDetectCloudnsHostAndZone probe name cache = (Except.ok t, c2, ps)) :
    autoDetectCloudnsHostAndZone probe name c2 = (Except.ok t, c2, []) := by
  rw [autoDetect_eq] at h
  have hfst := congrArg Prod.fst h
  have hcache := congrArg (fun x => x.2.1) h
  simp only at hfst hcache
  have hzne : selectedZoneName probe cache name ≠ "" := by
    intro hz
    rw [if_pos hz] at hfst
    exact Except.noConfusion hfst
  rw [if_neg hzne] at hfst
  have ht : t = ⟨selectedHostName probe cache name, selectedZoneName probe cache name⟩ := by
    injection hfst with h'
    exact h'.symm
  have hR2 : cacheGet c2 (zoneName2 name) = some (zoneResponse2 probe cache name) := by
    rw [← hcache]
    exact cacheGet_zoneLookup_self probe (cacheAfterZone1 probe cache name) (zoneName2 name)
  have hR1 : cacheGet c2 (zoneName1 name) = some (zoneResponse1 probe cache name) := by
    rw [← hcache]
    exact cacheGet_zoneLookup_preserve probe (cacheAfterZone1 probe cache name) (zoneName2 name)
      (zoneName1 name) (zoneResponse1 probe cache name)
      (cacheGet_zoneLookup_self probe cache (zoneName1 name))
  have hl1 := zoneLookup_of_hit probe c2 (zoneName1 name) (zoneResponse1 probe cache name) hR1
  have hl2 := zoneLookup_of_hit probe c2 (zoneName2 name) (zoneResponse2 probe cache name) hR2
  have hset1 : cacheSet c2 (zoneName1 name) (zoneResponse1 probe cache name) = c2 :=
    cacheSet_cacheGet_same _ _ _ hR1
  have hset2 : cacheSet c2 (zoneName2 name) (zoneResponse2 probe cache name) = c2 :=
    cacheSet_cacheGet_same _ _ _ hR2
  have e1 : zoneResponse1 probe c2 name = zoneResponse1 probe cache name := by
    show (zoneLookup probe c2 (zoneName1 name)).1 = zoneResponse1 probe cache name
    rw [hl1]
  have eca1 : cacheAfterZone1 probe c2 name = c2 := by
    show (zoneLookup probe c2 (zoneName1 name)).2.1 = c2
    rw [hl1]
    exact hset1
  have e2 : zoneResponse2 probe c2 name = zoneResponse2 probe cache name := by
    have h' : zoneResponse2 probe c2 name = (zoneLookup probe c2 (zoneName2 name)).1 := by
      unfold zoneResponse2
      rw [eca1]
    rw [h', hl2]
  have eca2 : cacheAfterZone2 probe c2 name = c2 := by
    have h' : cacheAfterZone2 probe c2 name = (zoneLookup probe c2 (zoneName2 name)).2.1 := by
      unfold cacheAfterZone2
      rw [eca1]
    rw [h', hl2]
    exact hset2
  have eps : resolverProbes probe c2 name = [] := by
    have h' : resolverProbes probe c2 name = (zoneLookup probe c2 (zoneName1 name)).2.2 ++
        (zoneLookup probe c2 (zoneName2 name)).2.2 := by
      unfold resolverProbes
      rw [eca1]
    rw [h', hl1, hl2]
    rfl
  have esz : selectedZoneName probe c2 name = selectedZoneName probe cache name := by
    unfold selectedZoneName
    rw [e1, e2]
  have esh : selectedHostName probe c2 name = selectedHostName probe cache name := by
    unfold selectedHostName
    rw [e1, e2]
  rw [autoDetect_eq, esz, esh, eca2, eps, if_neg hzne, ← ht]

theorem createOrUpdate_cache_out (P : Provider) (name type value ttl : String)
    (cache : ZoneCache) (t : ResolvedTarget) (c2 : ZoneCache) (ps : List String)
    (h : autoDetectCloudnsHostAndZone P.probe name cache = (Except.ok t, c2, ps)) :
    (createOrUpdateCloudnsResource P name type value ttl cache).2.1 = c2 := by
  unfold createOrUpdateCloudnsResource
  simp only [h]
  repeat' split
  all_goals rfl

/-- C5: starting from a state whose first matching entry does not equal
the target, the first reconciliation issues exactly one mutation (a
create or an update); a second reconciliation with the same inputs,
against a provider that echoes back the stored host/type/ttl/record,
is a no-op with no mutation call. -/
theorem c5_reconciler_idempotent (P : Provider)
    (records2 : String → String → String → List DnsRecord)
    (name type value ttl : String) (cache : ZoneCache) (t : ResolvedTarget) (c2 : ZoneCache)
    (ps : List String) (r2 : DnsRecord)
    (h : autoDetectCloudnsHostAndZone P.probe name cache = (Except.ok t, c2, ps))
    (hfirst : ¬(∃ r : DnsRecord, (P.records t.zoneName t.hostName type).head? = some r ∧
      r.host = t.hostName ∧ r.type = type ∧ r.ttl = ttl ∧ r.record = value))
    (hecho : (records2 t.zoneName t.hostName type).head? = some r2)
    (hr2host : r2.host = t.hostName) (hr2type : r2.type = type) (hr2ttl : r2.ttl = ttl)
    (hr2rec : r2.record = value) :
    (∃ call : ApiCall,
      mutationCalls (createOrUpdateCloudnsResource P name type value ttl cache).2.2 =
        [call] ∧ isMutationCall call = true) ∧
    mutationCalls (createOrUpdateCloudnsResource ⟨P.probe, records2, P.mutate⟩ name type value
      ttl (createOrUpdateCloudnsResource P name type value ttl cache).2.1).2.2 = [] ∧
    (createOrUpdateCloudnsResource ⟨P.probe, records2, P.mutate⟩ name type value ttl
      (createOrUpdateCloudnsResource P name type value ttl cache).2.1).1 = Except.ok () := by
  have hnm : ¬((P.records t.zoneName t.hostName type).head?.map DnsRecord.host =
      some t.hostName ∧
      (P.records t.zoneName t.hostName type).head?.map DnsRecord.type = some type ∧
      (P.records t.zoneName t.hostName type).head?.map DnsRecord.ttl = some ttl ∧
      (P.records t.zoneName t.hostName type).head?.map DnsRecord.record = some value) := by
    rw [headMatch_iff]
    exact hfirst
  have hcacheout := createOrUpdate_cache_out P name type value ttl cache t c2 ps h
  have hresolve2 : autoDetectCloudnsHostAndZone P.probe name c2 = (Except.ok t, c2, []) :=
    autoDetect_idempotent P.probe name cache t c2 ps h
  have hnoop := createOrUpdate_noop ⟨P.probe, records2, P.mutate⟩ name type value ttl c2 t c2
    [] r2 hresolve2 hecho hr2host hr2type hr2ttl hr2rec
  refine ⟨?_, ?_, ?_⟩
  · by_cases hid : jsTruthyOpt ((P.records t.zoneName t.hostName type).head?.bind
        DnsRecord.id) = true
    · obtain ⟨r, hr⟩ : ∃ r, (P.records t.zoneName t.hostName type).head? = some r := by
        cases hh : (P.records t.zoneName t.hostName type).head? with
        | none => rw [hh] at hid; simp [jsTruthyOpt] at hid
        | some r => exact ⟨r, rfl⟩
      rw [hr, Option.some_bind] at hid
      have hnm' : ¬(r.host = t.hostName ∧ r.type = type ∧ r.ttl = ttl ∧
          r.record = value) := by
        intro hcon
        exact hfirst ⟨r, hr, hcon⟩
      refine ⟨ApiCall.modRecord t.zoneName r.id t.hostName type value ttl, ?_, rfl⟩
      rw [createOrUpdate_update P name type value ttl cache t c2 ps r h hr hnm' hid]
      exact mutationCalls_base_call ps t.zoneName t.hostName type
        (ApiCall.modRecord t.zoneName r.id t.hostName type value ttl) rfl
    · rw [Bool.not_eq_true] at hid
      refine ⟨ApiCall.addRecord t.zoneName t.hostName type value ttl, ?_, rfl⟩
      rw [createOrUpdate_create P name type value ttl cache t c2 ps h hnm hid]
      exact mutationCalls_base_call ps t.zoneName t.hostName type
        (ApiCall.addRecord t.zoneName t.hostName type value ttl) rfl
  · rw [hcacheout, hnoop]
    exact mutationCalls_base [] t.zoneName t.hostName type
  · rw [hcacheout, hnoop]

/-- C5 witness: creating `www.example.org CNAME target.example.net`
against an empty zone and re-running against the echoed record is a
no-op the second time. -/
theorem c5_witness :
    mutationCalls (createOrUpdateCloudnsResource ⟨providerOrgEmpty.probe, recsOrgMatch,
      providerOrgEmpty.mutate⟩ "www.example.org" "CNAME" "target.example.net" "300"
      (createOrUpdateCloudnsResource providerOrgEmpty "www.example.org" "CNAME"
        "target.example.net" "300" []).2.1).2.2 = [] := by
  exact (c5_reconciler_idempotent providerOrgEmpty recsOrgMatch "www.example.org" "CNAME"
    "target.example.net" "300" [] ⟨"www", "example.org"⟩
    [("example.org", ⟨"1"⟩), ("www.example.org", ⟨"0"⟩)]
    ["example.org", "www.example.org"]
    ⟨some "42", "www", "CNAME", "300", "target.example.net"⟩ rfl
    (by rintro ⟨r, hr, _⟩; exact Option.noConfusion hr)
    (by decide) rfl rfl rfl rfl).2.1

/-- C3: an export name not starting with the literal tag `ClouDNS:`
yields no directive and is skipped (not an error) by the driver; a
qualifying name parses to the verbatim second colon-part as record type
and the dot-join of the remaining parts as hostname; the tag-and-type
only name yields the empty hostname. -/
theorem c3_export_name_convention :
    (∀ nm : String, "ClouDNS:".data.isPrefixOf nm.data = false → parseExportName nm = none) ∧
    (∀ (P : Provider) (ttl : String) (stackNames : List String) (e : ExportObj)
      (rest : List ExportObj) (cache : ZoneCache) (nm : String),
      skipsByStackFilter stackNames e = false → e.name = some nm →
      "ClouDNS:".data.isPrefixOf nm.data = false →
      runExports P ttl stackNames (e :: rest) cache = runExports P ttl stackNames rest cache) ∧
    parseExportName "ClouDNS:CNAME:myhost:example:org" =
      some ⟨"CNAME", "myhost.example.org"⟩ ∧
    parseExportName "ClouDNS:CNAME" = some ⟨"CNAME", ""⟩ ∧
    (∀ (nm : String) (d : ParsedDirective), parseExportName nm = some d →
      d.recordType = ((jsSplit ':' nm)[1]?).getD "" ∧
      d.hostname = jsJoin "." ((jsSplit ':' nm).drop 2)) := by
  have hnone : ∀ nm : String, "ClouDNS:".data.isPrefixOf nm.data = false →
      parseExportName nm = none := by
    intro nm hpre
    unfold parseExportName
    rw [if_neg (by simp [hpre])]
  refine ⟨hnone, ?_, by decide, by decide, ?_⟩
  · intro P ttl stackNames e rest cache nm hskip hname hpre
    simp only [runExports, hskip, Bool.false_eq_true, if_false, hname, hnone nm hpre]
  · intro nm d hd
    unfold parseExportName at hd
    split at hd
    · injection hd with h'
      subst h'
      exact ⟨rfl, rfl⟩
    · exact Option.noConfusion hd

/-- C3 witness: a lowercase tag does not match the case-sensitive
convention, so the export produces no directive. -/
theorem c3_witness : parseExportName "cloudns:CNAME:myhost:example:org" = none :=
  c3_export_name_convention.1 "cloudns:CNAME:myhost:example:org" (by decide)

/-! ### Reconstruction of the original name from the selected split -/

theorem jsJoin_cons_ne_empty (a : String) (t : List String) (h : a ≠ "") :
    jsJoin "." (a :: t) ≠ "" := by
  cases t with
  | nil => simpa [jsJoin] using h
  | cons b t' =>
    rw [jsJoin_cons_of_ne_nil _ _ _ (by simp)]
    intro hc
    have hlen : (a ++ "." ++ jsJoin "." (b :: t')).length = 0 := by rw [hc]; rfl
    rw [String.length_append, String.length_append] at hlen
    have hd : ("." : String).length = 1 := rfl
    omega

theorem jsJoin_take_append_drop (l : List String) :
    ∀ k : Nat, 0 < k → k < l.length →
      jsJoin "." (l.take k) ++ "." ++ jsJoin "." (l.drop k) = jsJoin "." l := by
  induction l with
  | nil =>
    intro k h1 h2
    simp at h2
  | cons a t ih =>
    intro k h1 h2
    rcases k with _ | _ | j
    · omega
    · simp only [List.take_succ_cons, List.take_zero, List.drop_succ_cons, List.drop_zero]
      have ht : t ≠ [] := by
        intro he
        rw [he] at h2
        simp at h2
      rw [jsJoin_cons_of_ne_nil _ _ _ ht]
      rfl
    · have hj : 0 < j + 1 := Nat.succ_pos _
      have hlt : j + 1 < t.length := by
        rw [List.length_cons] at h2
        omega
      simp only [List.take_succ_cons, List.drop_succ_cons]
      have hlen : (t.take (j + 1)).length = j + 1 := by
        rw [List.length_take]
        omega
      have htake : t.take (j + 1) ≠ [] := by
        intro he
        rw [he] at hlen
        simp at hlen
      have ht : t ≠ [] := by
        intro he
        rw [he] at hlt
        simp at hlt
      rw [jsJoin_cons_of_ne_nil _ _ _ htake, jsJoin_cons_of_ne_nil _ _ _ ht,
        ← ih (j + 1) hj hlt]
      simp [String.append_assoc]

theorem candidate_reconstruction (name : String) (k : Nat)
    (hlabels : ∀ p ∈ nameParts name, p ≠ "") (hk : k ≤ (nameParts name).length - 1) :
    (jsJoin "." ((nameParts name).take k) = "" → jsJoin "." ((nameParts name).drop k) = name) ∧
    (jsJoin "." ((nameParts name).take k) ≠ "" →
      jsJoin "." ((nameParts name).take k) ++ "." ++ jsJoin "." ((nameParts name).drop k) =
        name) := by
  have hne := nameParts_ne_nil name
  have hpos : 0 < (nameParts name).length := List.length_pos.mpr hne
  rcases Nat.eq_zero_or_pos k with hk0 | hkpos
  · subst hk0
    constructor
    · intro _
      rw [List.drop_zero]
      exact jsJoin_nameParts name
    · intro hts
      exact absurd rfl hts
  · have hklt : k < (nameParts name).length := by omega
    have hlen : ((nameParts name).take k).length = k := by
      rw [List.length_take]
      omega
    have htake : (nameParts name).take k ≠ [] := by
      intro he
      rw [he] at hlen
      simp at hlen
      omega
    constructor
    · intro hempty
      obtain ⟨a, t, hat⟩ := List.exists_cons_of_ne_nil htake
      have ha : a ∈ nameParts name := by
        have : a ∈ (nameParts name).take k := by rw [hat]; exact List.mem_cons_self a t
        exact List.mem_of_mem_take this
      rw [hat] at hempty
      exact absurd hempty (jsJoin_cons_ne_empty a t (hlabels a ha))
    · intro _
      rw [jsJoin_take_append_drop (nameParts name) k hkpos hklt, jsJoin_nameParts]

/-- C6 counterexample: for `a.b.c` resolved as host `a` in zone `b.c`,
the spec's equation `zoneName ++ "." ++ hostName == name` fails
(`b.c.a` is not `a.b.c`); moreover for `.b.c` resolved as host `` in
zone `b.c`, even `zoneName == name` fails when a label is empty. -/
theorem c6_counterexample :
    (autoDetectCloudnsHostAndZone probeBC "a.b.c" []).1 = Except.ok ⟨"a", "b.c"⟩ ∧
    zoneName1 "a.b.c" ++ "." ++ hostName1 "a.b.c" ≠ "a.b.c" ∧
    (autoDetectCloudnsHostAndZone probeBC ".b.c" []).1 = Except.ok ⟨"", "b.c"⟩ ∧
    zoneName1 ".b.c" ≠ ".b.c" := by
  refine ⟨rfl, by decide, rfl, by decide⟩

/-- C6 amended: with the components in host-then-zone order, and for
names with no empty label, the reconstruction holds: if the resolver
returns `{hostName, zoneName}` then `hostName ++ "." ++ zoneName` is the
original name when `hostName` is nonempty, and `zoneName` is the
original name when `hostName` is empty (bare apex record). -/
theorem c6_reconstruction (probe : String → ZoneProbeResult) (cache : ZoneCache)
    (name : String) (t : ResolvedTarget) (c2 : ZoneCache) (ps : List String)
    (hlabels : ∀ p ∈ nameParts name, p ≠ "")
    (h : autoDetectCloudnsHostAndZone probe name cache = (Except.ok t, c2, ps)) :
    (t.hostName = "" → t.zoneName = name) ∧
    (t.hostName ≠ "" → t.hostName ++ "." ++ t.zoneName = name) := by
  rw [autoDetect_eq] at h
  have hfst := congrArg Prod.fst h
  simp only at hfst
  have hzne : selectedZoneName probe cache name ≠ "" := by
    intro hz
    rw [if_pos hz] at hfst
    exact Except.noConfusion hfst
  rw [if_neg hzne] at hfst
  have ht : t = ⟨selectedHostName probe cache name, selectedZoneName probe cache name⟩ := by
    injection hfst with h'
    exact h'.symm
  subst ht
  have hne := nameParts_ne_nil name
  have hpos : 0 < (nameParts name).length := List.length_pos.mpr hne
  by_cases h1 : (zoneResponse1 probe cache name).status = "1"
  · simp only [selectedHostName, selectedZoneName, if_pos h1]
    rw [hostName1_eq_take, zoneName1_eq_drop]
    exact candidate_reconstruction name ((nameParts name).length - 2) hlabels (by omega)
  · by_cases h2 : (zoneResponse2 probe cache name).status = "1"
    · simp only [selectedHostName, selectedZoneName, if_neg h1, if_pos h2]
      by_cases hlen : (nameParts name).length = 2
      · rw [hostName2_eq_of_two name hlen, zoneName2_eq_of_two name hlen]
        exact candidate_reconstruction name 1 hlabels (by omega)
      · rw [hostName2_eq_take name hlen, zoneName2_eq_drop name hlen]
        exact candidate_reconstruction name ((nameParts name).length - 3) hlabels (by omega)
    · exact absurd (by simp [selectedZoneName, h1, h2]) hzne

/-- C6 witness: `www.example.org` with nonempty labels reconstructs as
`hostName ++ "." ++ zoneName`. -/
theorem c6_witness : ("www" : String) ++ "." ++ "example.org" = "www.example.org" := by
  have h := (c6_reconstruction probeOrgOnly [] "www.example.org" ⟨"www", "example.org"⟩
    [("example.org", ⟨"1"⟩), ("www.example.org", ⟨"0"⟩)]
    ["example.org", "www.example.org"] (by decide) rfl).2 (by decide)
  exact h

/-! ### Stack filter -/

/-- C9 counterexample: for an owning-stack identifier whose service
field is `iam`, the spec's pattern `arn:*:*:*:*:stack/<name>/*` still
extracts `my-stack`, so the claim predicts the export is kept with
filter `["my-stack"]`; the code's regex pins the service to
`cloudformation`, fails to match, and skips the export. -/
theorem c9_counterexample :
    skipsByStackFilter ["my-stack"] exportIam = true ∧
    specSkipsByStackFilter ["my-stack"] exportIam = false ∧
    specArnStackShortName "arn:aws:iam:eu-west-1:111:stack/my-stack/abcd" = some "my-stack" ∧
    arnStackShortName "arn:aws:iam:eu-west-1:111:stack/my-stack/abcd" = none := by
  refine ⟨by decide, by decide, by decide, by decide⟩

/-- C9 amended: with a nonempty filter, an export is skipped exactly
when its owning-stack identifier is not literally a filter entry and the
short name extracted by the code's pattern
`arn:*:cloudformation:*:*:stack/<name>/` — the service field is the
literal `cloudformation` — is absent or not a filter entry; an empty
filter considers every export.  The spec's own examples hold. -/
theorem c9_stack_filter (stackNames : List String) (e : ExportObj) :
    (skipsByStackFilter stackNames e = true ↔
      (stackNames ≠ [] ∧ stackNames.contains (e.exportingStackId.getD "") = false ∧
        ∀ n : String, stackIdShortName e.exportingStackId = some n →
          stackNames.contains n = false)) ∧
    skipsByStackFilter [] e = false ∧
    skipsByStackFilter ["my-stack"] exportW = false ∧
    skipsByStackFilter ["other-stack"] exportW = true := by
  refine ⟨?_, by simp [skipsByStackFilter], by decide, by decide⟩
  unfold skipsByStackFilter
  cases hm : stackIdShortName e.exportingStackId with
  | none =>
    simp [List.isEmpty_iff, hm]
  | some n =>
    simp [List.isEmpty_iff, hm]
    tauto

/-- C9 witness: the amended characterization applied to a
`cloudformation` ARN whose short name misses the filter. -/
theorem c9_witness : skipsByStackFilter ["other-stack"] exportW = true := by
  apply (c9_stack_filter ["other-stack"] exportW).1.mpr
  refine ⟨by decide, by decide, ?_⟩
  intro n hn
  have hsn : stackIdShortName exportW.exportingStackId = some "my-stack" := by decide
  rw [hsn] at hn
  injection hn with h'
  rw [← h']
  decide

/-! ### Zone cache: probe-at-most-once facts -/

theorem resolver_cache_preserve (probe : String → ZoneProbeResult) (cache : ZoneCache)
    (name z : String) (v : ZoneProbeResult) (h : cacheGet cache z = some v) :
    cacheGet (cacheAfterZone2 probe cache name) z = some v :=
  cacheGet_zoneLookup_preserve probe (cacheAfterZone1 probe cache name) (zoneName2 name) z v
    (cacheGet_zoneLookup_preserve probe cache (zoneName1 name) z v h)

theorem resolver_not_probed_of_cached (probe : String → ZoneProbeResult) (cache : ZoneCache)
    (name z : String) (h : (cacheGet cache z).isSome) :
    z ∉ resolverProbes probe cache name := by
  unfold resolverProbes
  intro hmem
  rcases List.mem_append.mp hmem with h1 | h2
  · rcases zoneLookup_probes_cases probe cache (zoneName1 name) with hc | ⟨hc, hnone⟩
    · rw [hc] at h1
      exact List.not_mem_nil z h1
    · rw [hc] at h1
      have hz : z = zoneName1 name := by simpa using h1
      rw [hz, hnone] at h
      exact Bool.noConfusion h
  · rcases zoneLookup_probes_cases probe (cacheAfterZone1 probe cache name) (zoneName2 name)
      with hc | ⟨hc, hnone⟩
    · rw [hc] at h2
      exact List.not_mem_nil z h2
    · rw [hc] at h2
      have hz : z = zoneName2 name := by simpa using h2
      obtain ⟨v, hv⟩ := Option.isSome_iff_exists.mp h
      have hv1 : cacheGet (cacheAfterZone1 probe cache name) z = some v :=
        cacheGet_zoneLookup_preserve probe cache (zoneName1 name) z v hv
      rw [hz] at hv1
      rw [hnone] at hv1
      exact Option.noConfusion hv1

theorem resolver_probed_cached_after (probe : String → ZoneProbeResult) (cache : ZoneCache)
    (name z : String) (h : z ∈ resolverProbes probe cache name) :
    (cacheGet (cacheAfterZone2 probe cache name) z).isSome := by
  unfold resolverProbes at h
  rcases List.mem_append.mp h with h1 | h2
  · rcases zoneLookup_probes_cases probe cache (zoneName1 name) with hc | ⟨hc, _⟩
    · rw [hc] at h1
      exact absurd h1 (List.not_mem_nil z)
    · rw [hc] at h1
      have hz : z = zoneName1 name := by simpa using h1
      rw [hz]
      have hself := cacheGet_zoneLookup_self probe cache (zoneName1 name)
      have hpres : cacheGet (cacheAfterZone2 probe cache name) (zoneName1 name) =
          some (zoneLookup probe cache (zoneName1 name)).1 :=
        cacheGet_zoneLookup_preserve probe (cacheAfterZone1 probe cache name) (zoneName2 name)
          (zoneName1 name) _ hself
      rw [hpres]
      rfl
  · rcases zoneLookup_probes_cases probe (cacheAfterZone1 probe cache name) (zoneName2 name)
      with hc | ⟨hc, _⟩
    · rw [hc] at h2
      exact absurd h2 (List.not_mem_nil z)
    · rw [hc] at h2
      have hz : z = zoneName2 name := by simpa using h2
      rw [hz]
      have hself := cacheGet_zoneLookup_self probe (cacheAfterZone1 probe cache name)
        (zoneName2 name)
      rw [show cacheAfterZone2 probe cache name =
        (zoneLookup probe (cacheAfterZone1 probe cache name) (zoneName2 name)).2.1 from rfl,
        hself]
      rfl

theorem resolver_probes_count_le_one (probe : String → ZoneProbeResult) (cache : ZoneCache)
    (name z : String) : (resolverProbes probe cache name).count z ≤ 1 := by
  unfold resolverProbes
  rw [List.count_append]
  rcases zoneLookup_probes_cases probe cache (zoneName1 name) with hc1 | ⟨hc1, hn1⟩ <;>
    rcases zoneLookup_probes_cases probe (cacheAfterZone1 probe cache name) (zoneName2 name)
      with hc2 | ⟨hc2, hn2⟩ <;> rw [hc1, hc2]
  · simp
  · rw [List.count_singleton']
    simp only [List.count_nil]
    split <;> omega
  · rw [List.count_singleton']
    simp only [List.count_nil]
    split <;> omega
  · have hne : zoneName2 name ≠ zoneName1 name := by
      intro he
      rw [he] at hn2
      rw [show cacheAfterZone1 probe cache name =
        (zoneLookup probe cache (zoneName1 name)).2.1 from rfl] at hn2
      rw [cacheGet_zoneLookup_self] at hn2
      exact Option.noConfusion hn2
    rw [List.count_singleton', List.count_singleton']
    by_cases hz1 : zoneName1 name = z
    · rw [if_pos hz1, if_neg (fun hz2 => hne (hz2.trans hz1.symm))]
    · rw [if_neg hz1]
      split <;> omega

theorem resolver_probes_first_miss (probe : String → ZoneProbeResult) (cache : ZoneCache)
    (name : String) (h : cacheGet cache (zoneName1 name) = none) :
    zoneName1 name ∈ resolverProbes probe cache name := by
  unfold resolverProbes
  rw [zoneLookup_of_miss probe cache (zoneName1 name) h]
  simp

/-- C10: when the resolver fails with `ZoneNotFound`, the cache it
hands back still holds the probe results for both candidate zone names
(the error does not roll the cache back), and any later resolution whose
candidates include one of those names is served from the cache without
re-probing. -/
theorem c10_cache_kept_on_zone_not_found (probe : String → ZoneProbeResult)
    (cache : ZoneCache) (name msg : String) (c2 : ZoneCache) (ps : List String)
    (h : autoDetectCloudnsHostAndZone probe name cache = (Except.error msg, c2, ps)) :
    cacheGet c2 (zoneName1 name) = some (zoneResponse1 probe cache name) ∧
    cacheGet c2 (zoneName2 name) = some (zoneResponse2 probe cache name) ∧
    (∀ name2 z : String, (z = zoneName1 name ∨ z = zoneName2 name) →
      z ∉ resolverProbes probe c2 name2) := by
  have hcache : c2 = cacheAfterZone2 probe cache name := by
    rw [← autoDetect_cache_out probe name cache, h]
  subst hcache
  have hz1 : cacheGet (cacheAfterZone2 probe cache name) (zoneName1 name) =
      some (zoneResponse1 probe cache name) :=
    cacheGet_zoneLookup_preserve probe (cacheAfterZone1 probe cache name) (zoneName2 name)
      (zoneName1 name) _ (cacheGet_zoneLookup_self probe cache (zoneName1 name))
  have hz2 : cacheGet (cacheAfterZone2 probe cache name) (zoneName2 name) =
      some (zoneResponse2 probe cache name) :=
    cacheGet_zoneLookup_self probe (cacheAfterZone1 probe cache name) (zoneName2 name)
  refine ⟨hz1, hz2, ?_⟩
  intro name2 z hz
  apply resolver_not_probed_of_cached
  rcases hz with hza | hzb
  · rw [hza, hz1]
    rfl
  · rw [hzb, hz2]
    rfl

/-- C10 witness: after `www.nope.org` fails to resolve, resolving
`other.nope.org` does not re-probe the shared candidate `nope.org`. -/
theorem c10_witness :
    "nope.org" ∉ resolverProbes probeNone
      (autoDetectCloudnsHostAndZone probeNone "www.nope.org" []).2.1 "other.nope.org" := by
  exact (c10_cache_kept_on_zone_not_found probeNone [] "www.nope.org"
    "Zone Not Found: www.nope.org"
    [("nope.org", ⟨"0"⟩), ("www.nope.org", ⟨"0"⟩)]
    ["nope.org", "www.nope.org"] rfl).2.2 "other.nope.org" "nope.org" (Or.inl rfl)

theorem count_map_getZoneInfo (pp : List String) (z : String) :
    (pp.map ApiCall.getZoneInfo).count (ApiCall.getZoneInfo z) = pp.count z := by
  apply List.count_map_of_injective
  intro a b hab
  injection hab

theorem probeCount_map (pp : List String) (z : String) :
    probeCount (pp.map ApiCall.getZoneInfo) z = pp.count z :=
  count_map_getZoneInfo pp z

theorem probeCount_with_extra (pp : List String) (z : String) (extra : List ApiCall)
    (hextra : ∀ c ∈ extra, ∀ y, c ≠ ApiCall.getZoneInfo y) :
    probeCount (pp.map ApiCall.getZoneInfo ++ extra) z = pp.count z := by
  unfold probeCount
  rw [List.count_append]
  have h0 : extra.count (ApiCall.getZoneInfo z) = 0 := by
    rw [List.count_eq_zero]
    intro hmem
    exact hextra _ hmem z rfl
  rw [h0, Nat.add_zero]
  exact count_map_getZoneInfo pp z

theorem probeCount_base (pp : List String) (z a b c : String) :
    probeCount (pp.map ApiCall.getZoneInfo ++ [ApiCall.getRecords a b c]) z = pp.count z := by
  apply probeCount_with_extra
  intro x hx y
  simp only [List.mem_singleton] at hx
  subst hx
  simp

theorem probeCount_base_mod (pp : List String) (z a b c d e f g w : String)
    (i : Option String) :
    probeCount (pp.map ApiCall.getZoneInfo ++ [ApiCall.getRecords a b c] ++
      [ApiCall.modRecord d i e f g w]) z = pp.count z := by
  rw [List.append_assoc]
  apply probeCount_with_extra
  intro x hx y
  rcases List.mem_append.mp hx with hx1 | hx2
  · simp only [List.mem_singleton] at hx1
    subst hx1
    simp
  · simp only [List.mem_singleton] at hx2
    subst hx2
    simp

theorem probeCount_base_add (pp : List String) (z a b c d e f g w : String) :
    probeCount (pp.map ApiCall.getZoneInfo ++ [ApiCall.getRecords a b c] ++
      [ApiCall.addRecord d e f g w]) z = pp.count z := by
  rw [List.append_assoc]
  apply probeCount_with_extra
  intro x hx y
  rcases List.mem_append.mp hx with hx1 | hx2
  · simp only [List.mem_singleton] at hx1
    subst hx1
    simp
  · simp only [List.mem_singleton] at hx2
    subst hx2
    simp

theorem createOrUpdate_probe_facts (P : Provider) (name type value ttl : String)
    (cache : ZoneCache) :
    (createOrUpdateCloudnsResource P name type value ttl cache).2.1 =
      cacheAfterZone2 P.probe cache name ∧
    (∀ z, probeCount (createOrUpdateCloudnsResource P name type value ttl cache).2.2 z =
      (resolverProbes P.probe cache name).count z) := by
  rcases hAD : autoDetectCloudnsHostAndZone P.probe name cache with ⟨res, cc, pp⟩
  have hcc : cc = cacheAfterZone2 P.probe cache name := by
    rw [← autoDetect_cache_out P.probe name cache, hAD]
  have hpp : pp = resolverProbes P.probe cache name := by
    rw [← autoDetect_probes_out P.probe name cache, hAD]
  subst hcc
  subst hpp
  unfold createOrUpdateCloudnsResource
  cases res with
  | error e =>
    simp only [hAD]
    exact ⟨trivial, fun z => probeCount_map _ z⟩
  | ok t =>
    simp only [hAD]
    constructor
    · repeat' split
      all_goals rfl
    · intro z
      repeat' split
      all_goals first
      | exact probeCount_base _ z _ _ _
      | exact probeCount_base_mod _ z _ _ _ _ _ _ _ _ _
      | exact probeCount_base_add _ z _ _ _ _ _ _ _ _

theorem runExports_cache_probe_inv (P : Provider) (ttl : String) (sn : List String) :
    ∀ (exports : List ExportObj) (cache : ZoneCache) (z : String),
      ((cacheGet cache z).isSome →
        probeCount (runExports P ttl sn exports cache).2.2 z = 0) ∧
      probeCount (runExports P ttl sn exports cache).2.2 z ≤ 1 ∧
      (∀ v, cacheGet cache z = some v →
        cacheGet (runExports P ttl sn exports cache).2.1 z = some v) := by
  intro exports
  induction exports with
  | nil =>
    intro cache z
    exact ⟨fun _ => rfl, by simp [runExports, probeCount], fun v hv => hv⟩
  | cons e rest ih =>
    intro cache z
    by_cases hsk : skipsByStackFilter sn e = true
    · simp only [runExports, hsk, if_true]
      exact ih cache z
    · rw [Bool.not_eq_true] at hsk
      cases hname : e.name with
      | none =>
        simp only [runExports, hsk, Bool.false_eq_true, if_false, hname]
        exact ih cache z
      | some nm =>
        cases hparse : parseExportName nm with
        | none =>
          simp only [runExports, hsk, Bool.false_eq_true, if_false, hname, hparse]
          exact ih cache z
        | some d =>
          rcases hrun : createOrUpdateCloudnsResource P d.hostname d.recordType e.value ttl
            cache with ⟨res, cc, calls⟩
          have hfacts := createOrUpdate_probe_facts P d.hostname d.recordType e.value ttl cache
          rw [hrun] at hfacts
          obtain ⟨hcc0, hcount0⟩ := hfacts
          have hcc : cc = cacheAfterZone2 P.probe cache d.hostname := hcc0
          have hcount : ∀ y, probeCount calls y =
              List.count y (resolverProbes P.probe cache d.hostname) := hcount0
          cases res with
          | error err =>
            simp only [runExports, hsk, Bool.false_eq_true, if_false, hname, hparse, hrun]
            refine ⟨?_, ?_, ?_⟩
            · intro hsome
              rw [hcount z, List.count_eq_zero]
              exact resolver_not_probed_of_cached P.probe cache d.hostname z hsome
            · rw [hcount z]
              exact resolver_probes_count_le_one P.probe cache d.hostname z
            · intro v hv
              rw [hcc]
              exact resolver_cache_preserve P.probe cache d.hostname z v hv
          | ok u =>
            simp only [runExports, hsk, Bool.false_eq_true, if_false, hname, hparse, hrun]
            rcases hrest : runExports P ttl sn rest cc with ⟨res2, c3, calls2⟩
            have ihcc := ih cc z
            rw [hrest] at ihcc
            obtain ⟨ih0x, ih1x, ihpresx⟩ := ihcc
            have ih0 : (cacheGet cc z).isSome → probeCount calls2 z = 0 := ih0x
            have ih1 : probeCount calls2 z ≤ 1 := ih1x
            have ihpres : ∀ v : ZoneProbeResult, cacheGet cc z = some v →
                cacheGet c3 z = some v := ihpresx
            simp only [hrest]
            refine ⟨?_, ?_, ?_⟩
            · intro hsome
              have hc1 : probeCount calls z = 0 := by
                rw [hcount z, List.count_eq_zero]
                exact resolver_not_probed_of_cached P.probe cache d.hostname z hsome
              have hc2 : probeCount calls2 z = 0 := by
                apply ih0
                obtain ⟨v, hv⟩ := Option.isSome_iff_exists.mp hsome
                rw [hcc, resolver_cache_preserve P.probe cache d.hostname z v hv]
                rfl
              unfold probeCount at hc1 hc2 ⊢
              rw [List.count_append, hc1, hc2]
            · by_cases hz : z ∈ resolverProbes P.probe cache d.hostname
              · have hc2 : probeCount calls2 z = 0 := by
                  apply ih0
                  rw [hcc]
                  exact resolver_probed_cached_after P.probe cache d.hostname z hz
                have hc1 : probeCount calls z ≤ 1 := by
                  rw [hcount z]
                  exact resolver_probes_count_le_one P.probe cache d.hostname z
                unfold probeCount at hc1 hc2 ⊢
                rw [List.count_append]
                omega
              · have hc1 : probeCount calls z = 0 := by
                  rw [hcount z, List.count_eq_zero]
                  exact hz
                unfold probeCount at hc1 ih1 ⊢
                rw [List.count_append]
                omega
            · intro v hv
              apply ihpres
              rw [hcc]
              exact resolver_cache_preserve P.probe cache d.hostname z v hv

/-- C8: over a whole run started with an empty cache, at most one
zone-info probe is ever issued per candidate zone name; a cached entry
is served from the cache (no probe) and its value is never overwritten
or evicted for the rest of the run; the first miss for a candidate does
issue its probe. -/
theorem c8_zone_probe_at_most_once :
    (∀ (P : Provider) (ttl : String) (sn : List String) (exports : List ExportObj)
      (z : String), probeCount (runExports P ttl sn exports []).2.2 z ≤ 1) ∧
    (∀ (P : Provider) (ttl : String) (sn : List String) (exports : List ExportObj)
      (cache : ZoneCache) (z : String) (v : ZoneProbeResult), cacheGet cache z = some v →
      cacheGet (runExports P ttl sn exports cache).2.1 z = some v) ∧
    (∀ (probe : String → ZoneProbeResult) (cache : ZoneCache) (name z : String)
      (v : ZoneProbeResult), cacheGet cache z = some v →
      cacheGet (cacheAfterZone2 probe cache name) z = some v ∧
      z ∉ resolverProbes probe cache name) ∧
    (∀ (probe : String → ZoneProbeResult) (cache : ZoneCache) (name : String),
      cacheGet cache (zoneName1 name) = none →
      zoneName1 name ∈ resolverProbes probe cache name) := by
  refine ⟨?_, ?_, ?_, ?_⟩
  · intro P ttl sn exports z
    exact (runExports_cache_probe_inv P ttl sn exports [] z).2.1
  · intro P ttl sn exports cache z v hv
    exact (runExports_cache_probe_inv P ttl sn exports cache z).2.2 v hv
  · intro probe cache name z v hv
    refine ⟨resolver_cache_preserve probe cache name z v hv, ?_⟩
    apply resolver_not_probed_of_cached
    rw [hv]
    rfl
  · intro probe cache name h
    exact resolver_probes_first_miss probe cache name h

/-- C8 witness: a pre-cached candidate zone keeps its value across a
run that resolves a name sharing that candidate. -/
theorem c8_witness :
    cacheGet (runExports providerNone "300" [] [exportW]
      [("nope.org", ⟨"1"⟩)]).2.1 "nope.org" = some ⟨"1"⟩ :=
  c8_zone_probe_at_most_once.2.1 providerNone "300" [] [exportW]
    [("nope.org", ⟨"1"⟩)] "nope.org" ⟨"1"⟩ (by decide)

end CloudnsSync
